import Mathlib

/-!
Verification model of the turbo_notes repository's encrypted local document
store: the password-derived-key crypto layer (`turbonotes/core/crypto.py`),
the terminal store (`turbo_notes.py`, class `TurboNotes`), the GUI store
(`turbonotes/core/storage.py`, class `NotesStorage`) and the mobile store
(`android_app/data_manager.py`, class `DataManager`).

Modelling conventions (shallow embedding):
* Byte strings on disk are modelled symbolically by the inductive `FileBytes`:
  a file either holds the JSON serialization of a document, a Fernet token
  (version byte 0x80, nonce, HMAC tag over the payload — abstracted to the
  key, a nonce, and the enclosed plaintext bytes), or bytes that are neither
  valid JSON nor a valid token.  A Fernet token is never valid JSON and plain
  JSON text is never a valid token (tokens are the urlsafe-base64 encoding of
  data starting with 0x80), which the symbolic split captures.
* A PBKDF2HMAC-SHA256 derived key is a deterministic, collision-free function
  of (password, salt); it is modelled as the pair itself (`DerivedKey`).
* Randomness (`os.urandom(16)` for salts, the random IV inside
  `Fernet.encrypt`) is passed in as explicit parameters (`fresh`, `nonce`).
* `datetime.now().isoformat()` timestamps are modelled as `Nat` clock values
  passed in as explicit parameters (`now`).
* A Python exception that the source catches or propagates is modelled with
  `Option`/`Except`/`Bool` results, following each function's own handling.
* The keyring entry `(app_name, "master_password")` and the data/salt files
  are external state; they live in the same state record as the object's own
  attributes, each field commented with what it models.
-/

namespace TurboNotesModel

/-- Symbolic PBKDF2HMAC(SHA256, 100000 iterations) key: deterministic and
collision-free in (password, salt), so modelled as the pair itself. -/
structure DerivedKey where
  password : String
  salt : List Nat
deriving DecidableEq, Repr

/-- Symbolic content of a byte string read from / written to disk: the JSON
serialization of a document of type `α`, a Fernet token (key, random nonce,
enclosed plaintext bytes), or bytes that are neither valid JSON nor a valid
Fernet token. -/
inductive FileBytes (α : Type) where
  | json : α → FileBytes α
  | token : DerivedKey → Nat → FileBytes α → FileBytes α
  | garbage : Nat → FileBytes α
deriving DecidableEq, Repr

/-- `json.loads` / `json.load`: succeeds exactly on the JSON serialization of
a document (a Fernet token or garbage is not valid JSON). -/
def parseJson {α : Type} : FileBytes α → Option α
  | .json d => some d
  | _ => none

/-- `cryptography.fernet.InvalidToken`: the distinct exception Fernet raises
when a token's authentication does not verify. -/
inductive FernetError where
  | invalidToken
deriving DecidableEq, Repr

/-- `Fernet(key).encrypt(data)`: authenticated encryption; the random IV is
the explicit `nonce` parameter. -/
def fernetEncrypt {α : Type} (key : DerivedKey) (nonce : Nat) (data : FileBytes α) :
    FileBytes α :=
  .token key nonce data

/-- `Fernet(key).decrypt(data)`: returns the enclosed plaintext when `data` is
a token whose authentication tag verifies under `key`; raises `InvalidToken`
on a token under a different key or on bytes that are not a token at all. -/
def fernetDecrypt {α : Type} (key : DerivedKey) : FileBytes α → Except FernetError (FileBytes α)
  | .token k _ inner => if k = key then .ok inner else .error .invalidToken
  | _ => .error .invalidToken

/-! ## `turbonotes/core/crypto.py` — class `CryptoManager` -/

/-- State of a `CryptoManager` object together with the external state it
reads and writes. -/
structure CryptoManager where
  /-- `keyring.get_password(app_name, "master_password")`: the stored verifier. -/
  keyringPw : Option String
  /-- Contents of `salt.key`; `none` means the file does not exist. -/
  salt_file : Option (List Nat)
  /-- `self._fernet`: `none` models `None` (passthrough mode). -/
  fernet : Option DerivedKey
deriving DecidableEq, Repr

namespace CryptoManager

/-- `CryptoManager.is_enabled`. -/
def is_enabled (c : CryptoManager) : Bool :=
  c.keyringPw.isSome

/-- `CryptoManager._derive_key`: reads the salt file if it exists, otherwise
writes 16 fresh random bytes (`fresh` models the `os.urandom(16)` result);
then derives the PBKDF2 key from the password and that salt. -/
def derive_key (c : CryptoManager) (password : String) (fresh : List Nat) :
    DerivedKey × CryptoManager :=
  match c.salt_file with
  | some salt => (⟨password, salt⟩, c)
  | none => (⟨password, fresh⟩, { c with salt_file := some fresh })

/-- `CryptoManager.enable`: store the verifier, then derive the key and
construct the Fernet cipher. -/
def enable (c : CryptoManager) (password : String) (fresh : List Nat) : CryptoManager :=
  let c1 := { c with keyringPw := some password }
  let (k, c2) := c1.derive_key password fresh
  { c2 with fernet := some k }

/-- `CryptoManager.disable`: delete the verifier (tolerating absence), delete
the salt file if present, drop the cipher. -/
def disable (c : CryptoManager) : CryptoManager :=
  { c with keyringPw := none, salt_file := none, fernet := none }

/-- `CryptoManager.load`: if a verifier is stored, derive the key from it and
construct the cipher; otherwise passthrough mode. -/
def load (c : CryptoManager) (fresh : List Nat) : CryptoManager :=
  match c.keyringPw with
  | some pw =>
    let (k, c2) := c.derive_key pw fresh
    { c2 with fernet := some k }
  | none => { c with fernet := none }

/-- `CryptoManager.encrypt`: identity in passthrough mode, Fernet encryption
otherwise. -/
def encrypt {α : Type} (c : CryptoManager) (nonce : Nat) (data : FileBytes α) : FileBytes α :=
  match c.fernet with
  | none => data
  | some k => fernetEncrypt k nonce data

/-- `CryptoManager.decrypt`: identity (never failing) in passthrough mode,
Fernet decryption otherwise; a Fernet failure propagates as `InvalidToken`. -/
def decrypt {α : Type} (c : CryptoManager) (data : FileBytes α) :
    Except FernetError (FileBytes α) :=
  match c.fernet with
  | none => .ok data
  | some k => fernetDecrypt k data

end CryptoManager

/-! ## `turbo_notes.py` — class `TurboNotes` (terminal variant) -/

/-- A note dict as built by `TurboNotes.add_note`. -/
structure Note where
  id : Nat
  title : String
  content : String
  created : Nat
  modified : Nat
deriving DecidableEq, Repr

/-- A task dict as built by `TurboNotes.add_task`. -/
structure Task where
  id : Nat
  title : String
  description : String
  priority : String
  due_date : Option String
  category : String
  completed : Bool
  created : Nat
  modified : Nat
deriving DecidableEq, Repr

/-- The `self.data` document dict of `TurboNotes`. -/
structure Doc where
  notes : List Note
  tasks : List Task
  categories : List String
  /-- `"last_accessed"`: `none` models JSON `null`. -/
  last_accessed : Option Nat
  /-- `"password_enabled"`: tri-state `None` / `True` / `False`. -/
  password_enabled : Option Bool
deriving DecidableEq, Repr

/-- The document built by `TurboNotes.__init__`. -/
def initialDoc : Doc :=
  { notes := [], tasks := [], categories := ["Personal", "Work", "Ideas"],
    last_accessed := none, password_enabled := none }

/-- State of a `TurboNotes` object (`cipher_suite`, `data`) together with the
external keyring entry and the contents of `notes_data.enc` and `salt.key`. -/
structure TurboNotes where
  /-- `keyring.get_password(app_name, "master_password")`: the stored verifier. -/
  keyringPw : Option String
  /-- Contents of `notes_data.enc`; `none` means the file does not exist. -/
  dataFile : Option (FileBytes Doc)
  /-- Contents of `salt.key`; `none` means the file does not exist. -/
  saltFile : Option (List Nat)
  /-- `self.cipher_suite`: `none` models `None`. -/
  cipher_suite : Option DerivedKey
  /-- `self.data`. -/
  data : Doc
deriving DecidableEq, Repr

/-- A fresh `TurboNotes()` object over a given external environment:
`cipher_suite = None` and `self.data` is the initial document. -/
def mkTurboNotes (kp : Option String) (df : Option (FileBytes Doc))
    (sf : Option (List Nat)) : TurboNotes :=
  { keyringPw := kp, dataFile := df, saltFile := sf,
    cipher_suite := none, data := initialDoc }

namespace TurboNotes

/-- `TurboNotes.generate_key_from_password`: get-or-create the salt (`fresh`
models the `os.urandom(16)` result used when `salt.key` is absent), then
derive the PBKDF2 key. Returns the key and the updated state. -/
def generate_key_from_password (s : TurboNotes) (password : String)
    (fresh : List Nat) : DerivedKey × TurboNotes :=
  match s.saltFile with
  | some salt => (⟨password, salt⟩, s)
  | none => (⟨password, fresh⟩, { s with saltFile := some fresh })

/-- `TurboNotes.save_data`: stamp `last_accessed`, serialize, then write plain
JSON when no verifier is stored, else encrypt with `self.cipher_suite`.  When
a verifier is stored but `cipher_suite` is `None`, the attribute access raises
and the surrounding `except` swallows it: the file is not written (but
`last_accessed` was already mutated). -/
def save_data (s : TurboNotes) (now nonce : Nat) : TurboNotes :=
  let d := { s.data with last_accessed := some now }
  match s.keyringPw with
  | none => { s with data := d, dataFile := some (.json d) }
  | some _ =>
    match s.cipher_suite with
    | some key => { s with data := d, dataFile := some (fernetEncrypt key nonce (.json d)) }
    | none => { s with data := d }

/-- `TurboNotes.save_data_unencrypted`: stamp `last_accessed` and write plain
JSON unconditionally. -/
def save_data_unencrypted (s : TurboNotes) (now : Nat) : TurboNotes :=
  let d := { s.data with last_accessed := some now }
  { s with data := d, dataFile := some (.json d) }

/-- `TurboNotes.load_data`: `True` when the file is absent; otherwise parse it
as plain JSON when no verifier is stored, else decrypt with `cipher_suite`
and parse.  Any failure (decrypt, parse, or `cipher_suite` being `None`) is
caught and reported as `False`; `self.data` is assigned only on full
success. -/
def load_data (s : TurboNotes) : Bool × TurboNotes :=
  match s.dataFile with
  | none => (true, s)
  | some content =>
    match s.keyringPw with
    | none =>
      match parseJson content with
      | some d => (true, { s with data := d })
      | none => (false, s)
    | some _ =>
      match s.cipher_suite with
      | none => (false, s)
      | some key =>
        match fernetDecrypt key content with
        | .error _ => (false, s)
        | .ok inner =>
          match parseJson inner with
          | some d => (true, { s with data := d })
          | none => (false, s)

/-- The interactive inputs consumed by `TurboNotes.setup_encryption`. -/
structure SetupInput where
  /-- Answer to "Do you want to set a password ...?" (`"y"` or `"n"`). -/
  setPwChoice : String
  /-- Successive (password, confirmation) pairs typed in the set-password
  loop; the loop consumes them until one is valid. -/
  pwAttempts : List (String × String)
  /-- The password typed at the "Enter master password" verification prompt. -/
  entered : String
  /-- `os.urandom(16)` result, used if a salt must be created. -/
  fresh : List Nat
  /-- Clock value for `save_data`. -/
  now : Nat
  /-- Fernet IV for `save_data`. -/
  nonce : Nat
deriving DecidableEq, Repr

/-- The `while True` password-setting loop shared by `setup_encryption`,
`change_password` and `enable_password`: the first attempt whose password
matches its confirmation and has length ≥ 6 is accepted; `none` models the
loop still waiting for further input when every supplied attempt failed. -/
def acceptPassword : List (String × String) → Option String
  | [] => none
  | (p, c) :: rest => if p = c ∧ 6 ≤ p.length then some p else acceptPassword rest

/-- The prompt branch of `setup_encryption` (no verifier stored, no loadable
plain file): ask whether to set a password; on `"y"` run the set-password
loop, store the verifier, derive the key, set the flag and save encrypted;
otherwise record the choice and save unencrypted. -/
def setupPrompt (s : TurboNotes) (inp : SetupInput) : Option (Bool × TurboNotes) :=
  if inp.setPwChoice = "y" then
    match acceptPassword inp.pwAttempts with
    | some pw =>
      let s0 := { s with keyringPw := some pw }
      let (key, s1) := s0.generate_key_from_password pw inp.fresh
      let s2 := { s1 with cipher_suite := some key,
                          data := { s1.data with password_enabled := some true } }
      some (true, s2.save_data inp.now inp.nonce)
    | none => none
  else
    let s2 := { s with cipher_suite := none,
                       data := { s.data with password_enabled := some false } }
    some (true, s2.save_data inp.now inp.nonce)

/-- `TurboNotes.setup_encryption`: if the document says passwords are
disabled, passthrough; if no verifier is stored, try loading the file as
plain JSON and otherwise run the first-run prompt; if a verifier is stored,
compare the typed password against it — on a match derive the key, install
the cipher, set the flag and save; on a mismatch report `False` with no state
change. -/
def setup_encryption (s : TurboNotes) (inp : SetupInput) : Option (Bool × TurboNotes) :=
  if s.data.password_enabled = some false then
    some (true, { s with cipher_suite := none })
  else
    match s.keyringPw with
    | none =>
      match s.dataFile with
      | some content =>
        match parseJson content with
        | some d => some (true, { s with data := d })
        | none => s.setupPrompt inp
      | none => s.setupPrompt inp
    | some stored =>
      if inp.entered = stored then
        let (key, s1) := s.generate_key_from_password stored inp.fresh
        let s2 := { s1 with cipher_suite := some key,
                            data := { s1.data with password_enabled := some true } }
        some (true, s2.save_data inp.now inp.nonce)
      else
        some (false, s)

/-- The store-facing portion of `TurboNotes.run`: `setup_encryption` then
`load_data`, returning `False` as soon as either fails; the subsequent
`interactive_menu()` (pure UI) is outside the model, so a fully successful
run is reported as `(true, state)` at the point the menu would start. -/
def run (s : TurboNotes) (inp : SetupInput) : Option (Bool × TurboNotes) :=
  match s.setup_encryption inp with
  | none => none
  | some (false, s1) => some (false, s1)
  | some (true, s1) =>
    match s1.load_data with
    | (false, s2) => some (false, s2)
    | (true, s2) => some (true, s2)

/-- `TurboNotes.add_note`: append a note with `id = len(notes) + 1`, then
save. -/
def add_note (s : TurboNotes) (title content : String) (now nonce : Nat) : TurboNotes :=
  let note : Note := { id := s.data.notes.length + 1, title := title,
                       content := content, created := now, modified := now }
  ({ s with data := { s.data with notes := s.data.notes ++ [note] } }).save_data now nonce

/-- `TurboNotes.add_task`: append a task with `id = len(tasks) + 1`, then
save. -/
def add_task (s : TurboNotes) (title description priority : String)
    (due_date : Option String) (category : String) (now nonce : Nat) : TurboNotes :=
  let task : Task := { id := s.data.tasks.length + 1, title := title,
                       description := description, priority := priority,
                       due_date := due_date, category := category,
                       completed := false, created := now, modified := now }
  ({ s with data := { s.data with tasks := s.data.tasks ++ [task] } }).save_data now nonce

/-- The store-facing core of `TurboNotes.delete_note_interactive`: with
`entry` the typed id (`none` when `int()` raised `ValueError`), filter out
every note with that id and save; no saving when there are no notes or the
input was invalid. -/
def delete_note_interactive (s : TurboNotes) (entry : Option Nat) (now nonce : Nat) :
    TurboNotes :=
  if s.data.notes = [] then s
  else
    match entry with
    | none => s
    | some note_id =>
      ({ s with data := { s.data with
          notes := s.data.notes.filter (fun n => n.id ≠ note_id) } }).save_data now nonce

/-- `TurboNotes.change_password`: no-op when no verifier is stored or the
typed current password mismatches; otherwise run the new-password loop,
derive the new key under the existing salt, install the cipher, replace the
verifier, and re-save (now encrypted under the new key). `none` models the
loop still awaiting a valid new password. -/
def change_password (s : TurboNotes) (old : String) (attempts : List (String × String))
    (fresh : List Nat) (now nonce : Nat) : Option TurboNotes :=
  match s.keyringPw with
  | none => some s
  | some stored =>
    if old ≠ stored then some s
    else
      match acceptPassword attempts with
      | none => none
      | some newPw =>
        let (key, s1) := s.generate_key_from_password newPw fresh
        let s2 := { s1 with cipher_suite := some key, keyringPw := some newPw }
        some (s2.save_data now nonce)

/-- `TurboNotes.disable_password`: no-op when no verifier is stored or the
typed password mismatches; otherwise save unencrypted, delete the verifier,
delete the salt file, drop the cipher, set the flag to `False` and save
unencrypted again. -/
def disable_password (s : TurboNotes) (entered : String) (now1 now2 : Nat) : TurboNotes :=
  match s.keyringPw with
  | none => s
  | some stored =>
    if entered ≠ stored then s
    else
      let s1 := s.save_data_unencrypted now1
      let s2 := { s1 with keyringPw := none, saltFile := none }
      let s3 := { s2 with cipher_suite := none,
                          data := { s2.data with password_enabled := some false } }
      s3.save_data_unencrypted now2

end TurboNotes

/-! ## `turbonotes/core/storage.py` — class `NotesStorage` (GUI variant) -/

/-- A GUI note as serialized by `turbonotes/core/models.py` (`Note.to_dict`);
the `window` geometry dict is modelled as an association list. -/
structure GuiNote where
  id : String
  title : String
  body : String
  created : Nat
  modified : Nat
  color : String
  pinned : Bool
  window : List (String × Int)
deriving DecidableEq, Repr

/-- The `self._data` document dict of `NotesStorage`. -/
structure GuiDoc where
  notes : List GuiNote
deriving DecidableEq, Repr

/-- `NotesStorage.load` propagates exceptions to its caller: a Fernet
`InvalidToken` from `crypto.decrypt`, or a `json.loads` decode error. -/
inductive LoadError where
  | fernet : FernetError → LoadError
  | jsonDecode : LoadError
deriving DecidableEq, Repr

/-- State of a `NotesStorage` object: its `CryptoManager` (sharing the
keyring and `salt.key`), the contents of `notes_gui.json`, `self._data` and
`self._loaded`. -/
structure NotesStorage where
  crypto : CryptoManager
  /-- Contents of `notes_gui.json`; `none` means the file does not exist. -/
  file_path : Option (FileBytes GuiDoc)
  data : GuiDoc
  loaded : Bool
deriving DecidableEq, Repr

namespace NotesStorage

/-- `NotesStorage.load`: nothing to do when the file is absent; otherwise
read the bytes, pass them through `crypto.decrypt` (identity in passthrough
mode, Fernet otherwise — `InvalidToken` propagates), then `json.loads`
(propagating a decode error on bytes that are not the JSON serialization of
a document). -/
def load (s : NotesStorage) : Except LoadError NotesStorage :=
  match s.file_path with
  | none => .ok { s with loaded := true }
  | some raw =>
    match s.crypto.decrypt raw with
    | .error e => .error (.fernet e)
    | .ok plain =>
      match parseJson plain with
      | some d => .ok { s with data := d, loaded := true }
      | none => .error .jsonDecode

/-- `NotesStorage.save`: serialize `self._data`, pass through
`crypto.encrypt`, write the file. -/
def save (s : NotesStorage) (nonce : Nat) : NotesStorage :=
  { s with file_path := some (s.crypto.encrypt nonce (.json s.data)) }

end NotesStorage

/-! ## `android_app/data_manager.py` — class `DataManager` (mobile variant) -/

/-- A mobile note dict as built by `DataManager.add_note`. -/
structure MNote where
  id : Nat
  title : String
  content : String
  category : String
  tags : List String
  created : Nat
  modified : Nat
  is_code : Bool
deriving DecidableEq, Repr

/-- A mobile task dict as built by `DataManager.add_task`. -/
structure MTask where
  id : Nat
  title : String
  description : String
  priority : String
  due_date : Option String
  category : String
  completed : Bool
  created : Nat
  modified : Nat
deriving DecidableEq, Repr

/-- The `"stats"` section of the mobile document. -/
structure MStats where
  total_notes : Nat
  total_tasks : Nat
  completed_tasks : Nat
  streak_days : Nat
  last_used : Option Nat
  achievements : List String
deriving DecidableEq, Repr

/-- The `"settings"` section of the mobile document. -/
structure MSettings where
  theme : String
  notifications : Bool
  sync_enabled : Bool
  code_highlighting : Bool
deriving DecidableEq, Repr

/-- The `self.data` document dict of `DataManager`. -/
structure MDoc where
  notes : List MNote
  tasks : List MTask
  categories : List String
  stats : MStats
  settings : MSettings
deriving DecidableEq, Repr

/-- The document built by `DataManager.__init__` before `load_data`. -/
def initialMDoc : MDoc :=
  { notes := [], tasks := [],
    categories := ["Personal", "Work", "Ideas", "Code", "Learning"],
    stats := { total_notes := 0, total_tasks := 0, completed_tasks := 0,
               streak_days := 0, last_used := none, achievements := [] },
    settings := { theme := "dark", notifications := true,
                  sync_enabled := false, code_highlighting := true } }

/-- State of a `DataManager` object: `self.data` and the contents of
`notes_data.json`. -/
structure DataManager where
  /-- Contents of `notes_data.json`; `none` means the file does not exist. -/
  dataFile : Option (FileBytes MDoc)
  data : MDoc
deriving DecidableEq, Repr

namespace DataManager

/-- The substring indicators of `DataManager.detect_code`. -/
def code_indicators : List String :=
  ["def ", "class ", "import ", "from ", "function", "var ", "let ", "const ",
   "public ", "private ", "protected ", "static ", "void ", "int ", "String ",
   "<?php", "#!/", "SELECT ", "INSERT ", "UPDATE ", "DELETE ", "CREATE TABLE"]

/-- `DataManager.detect_code`: `True` when any indicator occurs as a
substring of the content. -/
def detect_code (content : String) : Bool :=
  code_indicators.any (fun ind => decide (ind.toList <:+: content.toList))

/-- `DataManager.load_data`: `True` when the file is absent; otherwise parse
it as JSON and merge into `self.data` (the serialized document carries every
top-level key, so `self.data.update(loaded_data)` replaces the whole
document), returning `False` when parsing raises. -/
def load_data (s : DataManager) : Bool × DataManager :=
  match s.dataFile with
  | none => (true, s)
  | some content =>
    match parseJson content with
    | some d => (true, { s with data := d })
    | none => (false, s)

/-- `DataManager.save_data`: stamp `stats.last_used`, write the JSON
serialization. -/
def save_data (s : DataManager) (now : Nat) : DataManager :=
  let d := { s.data with stats := { s.data.stats with last_used := some now } }
  { s with data := d, dataFile := some (.json d) }

/-- `DataManager.add_note`: append a note with `id = len(notes) + 1`, bump
`total_notes`, save, and return the note. -/
def add_note (s : DataManager) (title content : String) (category : String)
    (tags : List String) (now : Nat) : MNote × DataManager :=
  let note : MNote := { id := s.data.notes.length + 1, title := title,
                        content := content, category := category, tags := tags,
                        created := now, modified := now,
                        is_code := detect_code content }
  let s1 := { s with data := { s.data with
                notes := s.data.notes ++ [note],
                stats := { s.data.stats with
                  total_notes := s.data.stats.total_notes + 1 } } }
  (note, s1.save_data now)

/-- `DataManager.add_task`: append a task with `id = len(tasks) + 1`, bump
`total_tasks`, save, and return the task. -/
def add_task (s : DataManager) (title description priority : String)
    (due_date : Option String) (category : String) (now : Nat) :
    MTask × DataManager :=
  let task : MTask := { id := s.data.tasks.length + 1, title := title,
                        description := description, priority := priority,
                        due_date := due_date, category := category,
                        completed := false, created := now, modified := now }
  let s1 := { s with data := { s.data with
                tasks := s.data.tasks ++ [task],
                stats := { s.data.stats with
                  total_tasks := s.data.stats.total_tasks + 1 } } }
  (task, s1.save_data now)

/-- `DataManager.delete_note`: keep every note with a different id, save,
return `True` unconditionally. -/
def delete_note (s : DataManager) (note_id : Nat) (now : Nat) : Bool × DataManager :=
  let s1 := { s with data := { s.data with
                notes := s.data.notes.filter (fun n => n.id ≠ note_id) } }
  (true, s1.save_data now)

/-- `DataManager.delete_task`: keep every task with a different id, save,
return `True` unconditionally. -/
def delete_task (s : DataManager) (task_id : Nat) (now : Nat) : Bool × DataManager :=
  let s1 := { s with data := { s.data with
                tasks := s.data.tasks.filter (fun t => t.id ≠ task_id) } }
  (true, s1.save_data now)

end DataManager

/-! ## Theorems -/

/-- C1: for every payload and every key, decrypting the result of encrypting
returns exactly the payload — both when a key is installed (Fernet
round-trip) and in passthrough mode, where encrypt is the identity and
decrypt returns its input unchanged. -/
theorem crypto_roundtrip (α : Type) (kp : Option String) (sf : Option (List Nat))
    (f : Option DerivedKey) (nonce : Nat) (p : FileBytes α) :
    CryptoManager.decrypt ⟨kp, sf, f⟩ (CryptoManager.encrypt ⟨kp, sf, f⟩ nonce p) =
      .ok p
    ∧ CryptoManager.encrypt ⟨kp, sf, none⟩ nonce p = p
    ∧ CryptoManager.decrypt ⟨kp, sf, none⟩ p = .ok p := by
  refine ⟨?_, rfl, rfl⟩
  cases f with
  | none => rfl
  | some k =>
    simp [CryptoManager.decrypt, CryptoManager.encrypt, fernetEncrypt, fernetDecrypt]

/-- C2: decrypting a ciphertext produced under one key with a cipher
constructed from a different key fails with the distinct, catchable
`InvalidToken` error; it never returns a wrong plaintext. -/
theorem crypto_wrong_key_fails (α : Type) (k1 k2 : DerivedKey) (h : k1 ≠ k2)
    (kp1 kp2 : Option String) (sf1 sf2 : Option (List Nat)) (nonce : Nat)
    (p : FileBytes α) :
    CryptoManager.decrypt ⟨kp2, sf2, some k2⟩
        (CryptoManager.encrypt ⟨kp1, sf1, some k1⟩ nonce p) =
      .error .invalidToken := by
  simp [CryptoManager.decrypt, CryptoManager.encrypt, fernetEncrypt, fernetDecrypt, h]

/-- Witness for C2 at concrete distinct keys. -/
theorem crypto_wrong_key_fails_witness :
    (⟨"alpha", [1]⟩ : DerivedKey) ≠ ⟨"beta", [1]⟩ ∧
    CryptoManager.decrypt ⟨some "beta", some [1], some ⟨"beta", [1]⟩⟩
        (CryptoManager.encrypt ⟨some "alpha", some [1], some ⟨"alpha", [1]⟩⟩ 5
          (FileBytes.json (0 : Nat))) =
      .error .invalidToken :=
  ⟨by decide,
   crypto_wrong_key_fails Nat ⟨"alpha", [1]⟩ ⟨"beta", [1]⟩ (by decide)
     (some "alpha") (some "beta") (some [1]) (some [1]) 5 (FileBytes.json 0)⟩

/-- Terminal scenario for C8: create two notes, delete the first, create a
third. -/
def terminalCollisionDemo : TurboNotes :=
  ((((mkTurboNotes none none none).add_note "A" "x" 0 0).add_note "B" "y" 1
      0).delete_note_interactive (some 1) 2 0).add_note "C" "z" 3 0

/-- Mobile scenario for C8: create two notes, delete the first, create a
third. -/
def mobileCollisionDemo : DataManager :=
  (((((⟨none, initialMDoc⟩ : DataManager).add_note "A" "x" "Personal" []
      0).2.add_note "B" "y" "Personal" [] 1).2.delete_note 1
      2).2.add_note "C" "z" "Personal" [] 3).2

/-- C8: in the terminal and mobile variants every created note or task gets
`id = count of existing items of that kind + 1`, and after the sequence
create / create / delete-first / create, two distinct notes carry the same
id in both variants. -/
theorem id_count_plus_one_and_collision :
    (∀ (s : TurboNotes) (t c : String) (now nonce : Nat),
        (s.add_note t c now nonce).data.notes =
          s.data.notes ++ [{ id := s.data.notes.length + 1, title := t, content := c,
                             created := now, modified := now }]) ∧
    (∀ (s : TurboNotes) (t d p : String) (dd : Option String) (cat : String)
        (now nonce : Nat),
        (s.add_task t d p dd cat now nonce).data.tasks =
          s.data.tasks ++ [{ id := s.data.tasks.length + 1, title := t,
                             description := d, priority := p, due_date := dd,
                             category := cat, completed := false,
                             created := now, modified := now }]) ∧
    (∀ (s : DataManager) (t c cat : String) (tags : List String) (now : Nat),
        (s.add_note t c cat tags now).1.id = s.data.notes.length + 1 ∧
        (s.add_note t c cat tags now).2.data.notes =
          s.data.notes ++ [(s.add_note t c cat tags now).1]) ∧
    (∀ (s : DataManager) (t d p : String) (dd : Option String) (cat : String)
        (now : Nat),
        (s.add_task t d p dd cat now).1.id = s.data.tasks.length + 1 ∧
        (s.add_task t d p dd cat now).2.data.tasks =
          s.data.tasks ++ [(s.add_task t d p dd cat now).1]) ∧
    (terminalCollisionDemo.data.notes.map Note.id = [2, 2] ∧
     terminalCollisionDemo.data.notes.map Note.title = ["B", "C"]) ∧
    (mobileCollisionDemo.data.notes.map MNote.id = [2, 2] ∧
     mobileCollisionDemo.data.notes.map MNote.title = ["B", "C"]) := by
  refine ⟨?_, ?_, ?_, ?_, ⟨?_, ?_⟩, ⟨?_, ?_⟩⟩
  · intro s t c now nonce
    obtain ⟨kp, df, sf, cs, d⟩ := s
    cases kp <;> cases cs <;> rfl
  · intro s t d p dd cat now nonce
    obtain ⟨kp, df, sf, cs, dc⟩ := s
    cases kp <;> cases cs <;> rfl
  · intro s t c cat tags now
    exact ⟨rfl, rfl⟩
  · intro s t d p dd cat now
    exact ⟨rfl, rfl⟩
  · rfl
  · rfl
  · rfl
  · rfl

/-- C9: the terminal `load_data` is atomic on the in-memory document — on any
failure it returns `False` and leaves the whole state, in particular
`self.data`, exactly as it was. -/
theorem load_data_failure_is_atomic (s : TurboNotes)
    (h : (s.load_data).1 = false) :
    (s.load_data).2 = s ∧ (s.load_data).2.data = s.data := by
  obtain ⟨kp, df, sf, cs, d⟩ := s
  cases df with
  | none => simp [TurboNotes.load_data] at h
  | some content =>
    cases kp with
    | none =>
      cases hp : parseJson content with
      | some d2 => simp [TurboNotes.load_data, hp] at h
      | none => simp [TurboNotes.load_data, hp]
    | some v =>
      cases cs with
      | none => simp [TurboNotes.load_data]
      | some key =>
        cases hd : fernetDecrypt key content with
        | error e => simp [TurboNotes.load_data, hd]
        | ok inner =>
          cases hp : parseJson inner with
          | some d2 => simp [TurboNotes.load_data, hd, hp] at h
          | none => simp [TurboNotes.load_data, hd, hp]

/-- Witness for C9 at a concrete failing load (garbage file, no verifier). -/
theorem load_data_failure_is_atomic_witness :
    ((mkTurboNotes none (some (.garbage 0)) none).load_data).2 =
      mkTurboNotes none (some (.garbage 0)) none ∧
    ((mkTurboNotes none (some (.garbage 0)) none).load_data).2.data =
      (mkTurboNotes none (some (.garbage 0)) none).data :=
  load_data_failure_is_atomic (mkTurboNotes none (some (.garbage 0)) none) rfl

/-- C10: the mobile delete operations return `True` for every id — present or
absent — and still rewrite the data file, so their return value cannot
distinguish the two cases. -/
theorem mobile_delete_always_true (s : DataManager) (note_id task_id now : Nat) :
    (s.delete_note note_id now).1 = true ∧
    (s.delete_note note_id now).2.dataFile =
      some (.json { s.data with
        notes := s.data.notes.filter (fun n => n.id ≠ note_id),
        stats := { s.data.stats with last_used := some now } }) ∧
    (s.delete_task task_id now).1 = true ∧
    (s.delete_task task_id now).2.dataFile =
      some (.json { s.data with
        tasks := s.data.tasks.filter (fun t => t.id ≠ task_id),
        stats := { s.data.stats with last_used := some now } }) := by
  exact ⟨rfl, rfl, rfl, rfl⟩

/-- C3: with a verifier stored, a wrong password at the unlock prompt makes
the run gate report failure and leave the freshly constructed store
completely unchanged: no cipher is installed and the in-memory document is
still the empty initial document. -/
theorem wrong_password_refuses_unlock (v : String)
    (df : Option (FileBytes Doc)) (sf : Option (List Nat))
    (inp : TurboNotes.SetupInput) (h : inp.entered ≠ v) :
    TurboNotes.run (mkTurboNotes (some v) df sf) inp =
      some (false, mkTurboNotes (some v) df sf) ∧
    (mkTurboNotes (some v) df sf).cipher_suite = none ∧
    (mkTurboNotes (some v) df sf).data = initialDoc := by
  refine ⟨?_, rfl, rfl⟩
  simp [TurboNotes.run, TurboNotes.setup_encryption, mkTurboNotes, initialDoc, h]

/-- Witness for C3: verifier `"secret1"`, typed password `"wrong"`. -/
theorem wrong_password_refuses_unlock_witness :
    TurboNotes.run (mkTurboNotes (some "secret1") none none)
        ⟨"n", [], "wrong", [], 0, 0⟩ =
      some (false, mkTurboNotes (some "secret1") none none) ∧
    (mkTurboNotes (some "secret1") none none).cipher_suite = none ∧
    (mkTurboNotes (some "secret1") none none).data = initialDoc :=
  wrong_password_refuses_unlock "secret1" none none
    ⟨"n", [], "wrong", [], 0, 0⟩ (by decide)

/-- C4: with the correct current password, `disable_password` leaves the data
file holding the plain JSON serialization, removes the verifier, deletes the
salt file, drops the cipher and sets `password_enabled` to `False`; with a
wrong password it changes nothing. -/
theorem disable_password_spec (s : TurboNotes) (v w : String) (now1 now2 : Nat)
    (hv : s.keyringPw = some v) :
    s.disable_password v now1 now2 =
      { keyringPw := none,
        dataFile := some (.json { s.data with
                                  last_accessed := some now2,
                                  password_enabled := some false }),
        saltFile := none, cipher_suite := none,
        data := { s.data with
                  last_accessed := some now2,
                  password_enabled := some false } } ∧
    (w ≠ v → s.disable_password w now1 now2 = s) := by
  obtain ⟨kp, df, sf, cs, d⟩ := s
  cases hv
  constructor
  · simp [TurboNotes.disable_password, TurboNotes.save_data_unencrypted]
  · intro hw
    simp [TurboNotes.disable_password, hw]

/-- Witness for C4: correct password `"pw12"` and wrong password `"zz"`
against a concrete store. -/
theorem disable_password_spec_witness :
    (mkTurboNotes (some "pw12") none (some [7])).disable_password "pw12" 1 2 =
      { keyringPw := none,
        dataFile := some (.json { initialDoc with
                                  last_accessed := some 2,
                                  password_enabled := some false }),
        saltFile := none, cipher_suite := none,
        data := { initialDoc with
                  last_accessed := some 2,
                  password_enabled := some false } } ∧
    (mkTurboNotes (some "pw12") none (some [7])).disable_password "zz" 1 2 =
      mkTurboNotes (some "pw12") none (some [7]) :=
  ⟨(disable_password_spec (mkTurboNotes (some "pw12") none (some [7]))
      "pw12" "zz" 1 2 rfl).1,
   (disable_password_spec (mkTurboNotes (some "pw12") none (some [7]))
      "pw12" "zz" 1 2 rfl).2 (by decide)⟩

/-- C5: with the correct current password and an accepted new password,
`change_password` derives the new key under the existing persisted salt —
the salt file is byte-for-byte unchanged — while the verifier is replaced by
the new password and the document is re-saved encrypted under the new key. -/
theorem change_password_keeps_salt (s : TurboNotes) (v newPw : String)
    (b : List Nat) (attempts : List (String × String)) (fresh : List Nat)
    (now nonce : Nat) (hv : s.keyringPw = some v) (hb : s.saltFile = some b)
    (hacc : TurboNotes.acceptPassword attempts = some newPw) :
    s.change_password v attempts fresh now nonce =
      some { keyringPw := some newPw,
             dataFile := some (.token ⟨newPw, b⟩ nonce
               (.json { s.data with last_accessed := some now })),
             saltFile := some b,
             cipher_suite := some ⟨newPw, b⟩,
             data := { s.data with last_accessed := some now } } ∧
    (s.change_password v attempts fresh now nonce).map TurboNotes.saltFile =
      some s.saltFile := by
  obtain ⟨kp, df, sf, cs, d⟩ := s
  cases hv
  cases hb
  constructor
  · simp [TurboNotes.change_password, TurboNotes.generate_key_from_password,
          TurboNotes.save_data, fernetEncrypt, hacc]
  · simp [TurboNotes.change_password, TurboNotes.generate_key_from_password,
          TurboNotes.save_data, hacc]

/-- Witness for C5: change from `"oldpass"` to `"newpass1"` with salt `[7]`. -/
theorem change_password_keeps_salt_witness :
    (mkTurboNotes (some "oldpass") none (some [7])).change_password "oldpass"
        [("newpass1", "newpass1")] [] 4 9 =
      some { keyringPw := some "newpass1",
             dataFile := some (.token ⟨"newpass1", [7]⟩ 9
               (.json { initialDoc with last_accessed := some 4 })),
             saltFile := some [7],
             cipher_suite := some ⟨"newpass1", [7]⟩,
             data := { initialDoc with last_accessed := some 4 } } ∧
    ((mkTurboNotes (some "oldpass") none (some [7])).change_password "oldpass"
        [("newpass1", "newpass1")] [] 4 9).map TurboNotes.saltFile =
      some (mkTurboNotes (some "oldpass") none (some [7])).saltFile :=
  change_password_keeps_salt (mkTurboNotes (some "oldpass") none (some [7]))
    "oldpass" "newpass1" [7] [("newpass1", "newpass1")] [] 4 9 rfl rfl (by decide)

/-- C6: loading bytes that do not match the current mode surfaces a load
failure in every variant — the terminal `load_data` returns `False` (state
unchanged) on an encrypted file with no verifier and on a plain file with a
verifier; the GUI `NotesStorage.load` raises on both mismatches; the mobile
`load_data` returns `False` on bytes that are not valid JSON.  None of them
silently misinterprets the bytes. -/
theorem mode_mismatch_load_fails :
    (∀ (sf : Option (List Nat)) (cs : Option DerivedKey) (d : Doc)
        (key : DerivedKey) (nonce : Nat) (inner : FileBytes Doc),
        TurboNotes.load_data ⟨none, some (.token key nonce inner), sf, cs, d⟩ =
          (false, ⟨none, some (.token key nonce inner), sf, cs, d⟩)) ∧
    (∀ (v : String) (sf : Option (List Nat)) (cs : Option DerivedKey) (d d2 : Doc),
        TurboNotes.load_data ⟨some v, some (.json d2), sf, cs, d⟩ =
          (false, ⟨some v, some (.json d2), sf, cs, d⟩)) ∧
    (∀ (kp : Option String) (sf : Option (List Nat)) (d : GuiDoc) (l : Bool)
        (key : DerivedKey) (nonce : Nat) (inner : FileBytes GuiDoc),
        NotesStorage.load ⟨⟨kp, sf, none⟩, some (.token key nonce inner), d, l⟩ =
          .error .jsonDecode) ∧
    (∀ (kp : Option String) (sf : Option (List Nat)) (k : DerivedKey)
        (d d2 : GuiDoc) (l : Bool),
        NotesStorage.load ⟨⟨kp, sf, some k⟩, some (.json d2), d, l⟩ =
          .error (.fernet .invalidToken)) ∧
    (∀ (key : DerivedKey) (nonce : Nat) (inner : FileBytes MDoc) (d : MDoc),
        DataManager.load_data ⟨some (.token key nonce inner), d⟩ =
          (false, ⟨some (.token key nonce inner), d⟩)) := by
  refine ⟨fun sf cs d key nonce inner => rfl, ?_, fun kp sf d l key nonce inner => rfl,
          fun kp sf k d d2 l => rfl, fun key nonce inner d => rfl⟩
  intro v sf cs d d2
  cases cs <;> rfl

/-- C7: the salt get-or-create step (in both the terminal
`generate_key_from_password` and `CryptoManager._derive_key`) returns the
existing file's bytes unmodified when the file exists, otherwise writes the
16 fresh random bytes and uses them; after the first call every later call
returns the same salt and leaves the state untouched. -/
theorem salt_get_or_create_spec (s : TurboNotes) (c : CryptoManager)
    (pw pw2 : String) (fresh fresh2 : List Nat) :
    (∀ b, s.saltFile = some b →
        s.generate_key_from_password pw fresh = (⟨pw, b⟩, s)) ∧
    (s.saltFile = none → fresh.length = 16 →
        s.generate_key_from_password pw fresh =
          (⟨pw, fresh⟩, { s with saltFile := some fresh }) ∧
        (({ s with saltFile := some fresh } : TurboNotes).saltFile).map
            List.length = some 16) ∧
    (((s.generate_key_from_password pw fresh).2.generate_key_from_password
        pw2 fresh2).1.salt = (s.generate_key_from_password pw fresh).1.salt ∧
     ((s.generate_key_from_password pw fresh).2.generate_key_from_password
        pw2 fresh2).2 = (s.generate_key_from_password pw fresh).2) ∧
    (∀ b, c.salt_file = some b → c.derive_key pw fresh = (⟨pw, b⟩, c)) ∧
    (c.salt_file = none → fresh.length = 16 →
        c.derive_key pw fresh = (⟨pw, fresh⟩, { c with salt_file := some fresh }) ∧
        (({ c with salt_file := some fresh } : CryptoManager).salt_file).map
            List.length = some 16) := by
  obtain ⟨kp, df, sf, cs, d⟩ := s
  obtain ⟨ckp, csf, cf⟩ := c
  refine ⟨?_, ?_, ?_, ?_, ?_⟩
  · intro b hb
    cases hb
    rfl
  · intro hb hlen
    cases hb
    exact ⟨rfl, by simp [hlen]⟩
  · cases sf <;> exact ⟨rfl, rfl⟩
  · intro b hb
    cases hb
    rfl
  · intro hb hlen
    cases hb
    exact ⟨rfl, by simp [hlen]⟩

/-- Witness for C7: both the file-exists and file-absent branches at concrete
inputs, for the terminal store and for `CryptoManager`. -/
theorem salt_get_or_create_spec_witness :
    (mkTurboNotes none none (some [1, 2])).generate_key_from_password "p"
        [0, 1, 2, 3, 4, 5, 6, 7, 8, 9, 10, 11, 12, 13, 14, 15] =
      (⟨"p", [1, 2]⟩, mkTurboNotes none none (some [1, 2])) ∧
    ((mkTurboNotes none none none).generate_key_from_password "p"
        [0, 1, 2, 3, 4, 5, 6, 7, 8, 9, 10, 11, 12, 13, 14, 15] =
      (⟨"p", [0, 1, 2, 3, 4, 5, 6, 7, 8, 9, 10, 11, 12, 13, 14, 15]⟩,
       { mkTurboNotes none none none with
         saltFile := some [0, 1, 2, 3, 4, 5, 6, 7, 8, 9, 10, 11, 12, 13, 14, 15] }) ∧
     (({ mkTurboNotes none none none with
         saltFile := some [0, 1, 2, 3, 4, 5, 6, 7, 8, 9, 10, 11, 12, 13, 14, 15] }
         : TurboNotes).saltFile).map List.length = some 16) ∧
    (∀ b, (⟨none, some [3], none⟩ : CryptoManager).salt_file = some b →
        CryptoManager.derive_key ⟨none, some [3], none⟩ "q" [9] = (⟨"q", b⟩, ⟨none, some [3], none⟩)) :=
  ⟨(salt_get_or_create_spec (mkTurboNotes none none (some [1, 2]))
      ⟨none, some [3], none⟩ "p" "q"
      [0, 1, 2, 3, 4, 5, 6, 7, 8, 9, 10, 11, 12, 13, 14, 15] [9]).1 [1, 2] rfl,
   (salt_get_or_create_spec (mkTurboNotes none none none)
      ⟨none, some [3], none⟩ "p" "q"
      [0, 1, 2, 3, 4, 5, 6, 7, 8, 9, 10, 11, 12, 13, 14, 15] [9]).2.1 rfl rfl,
   (salt_get_or_create_spec (mkTurboNotes none none (some [1, 2]))
      ⟨none, some [3], none⟩ "q" "p" [9] [9]).2.2.2.1⟩

end TurboNotesModel
